import Mathlib

/-
Verification of the layout and serialization engine of `create-tftf`
(MotorolaMobilityLLC/bootrom-tools, src/create-tftf/create-tftf.c with
src/include/tftf.h), as a shallow embedding in Lean 4.

Machine integers (`uint32_t`) are modelled as `Nat` with explicit reduction
`% UINT32_MOD` at each point where the C program performs 32-bit arithmetic.
File descriptors and the byte contents of payloads are abstracted away: a
payload source is modelled by the sequence of the results of the successive
`read` calls it answers (a positive number of bytes delivered, `0` for
end-of-file, a negative value for a read error), which is all `copy_file`
ever inspects.
-/

namespace CreateTftf

/-- 2^32; `uint32_t` arithmetic is `Nat` arithmetic reduced by this modulus. -/
def UINT32_MOD : Nat := 4294967296

/-- `TFTF_MAX_SECTIONS` from tftf.h (25). -/
def TFTF_MAX_SECTIONS : Nat := 25

/-- `TFTF_SECTION_TYPE_RAW_CODE_BLOCK` from tftf.h. -/
def TFTF_SECTION_TYPE_RAW_CODE_BLOCK : Nat := 1

/-- `TFTF_SECTION_TYPE_RAW_DATA_BLOCK` from tftf.h. -/
def TFTF_SECTION_TYPE_RAW_DATA_BLOCK : Nat := 2

/-- `TFTF_SECTION_TYPE_MANIFEST` from tftf.h. -/
def TFTF_SECTION_TYPE_MANIFEST : Nat := 5

/-- `TFTF_SECTION_TYPE_END_OF_DESCRIPTORS` from tftf.h (0xFE). -/
def TFTF_SECTION_TYPE_END_OF_DESCRIPTORS : Nat := 254

/-- `PROGRAM_SUCCESS` exit status from create-tftf.c. -/
def PROGRAM_SUCCESS : Nat := 0

/-- `PROGRAM_WARNINGS` exit status from create-tftf.c. -/
def PROGRAM_WARNINGS : Nat := 1

/-- `PROGRAM_ERRORS` exit status from create-tftf.c. -/
def PROGRAM_ERRORS : Nat := 2

/-- `struct tftf_section` from tftf.h: four `uint32_t` fields. -/
structure TftfSection where
  section_length : Nat
  expanded_length : Nat
  copy_offset : Nat
  section_type : Nat
deriving DecidableEq, Repr

/-- An all-zero descriptor slot, as produced by `memset(&tftf_header, 0, ...)`
in `main`; unused slots of the descriptor array keep this value. -/
def zeroSection : TftfSection := ⟨0, 0, 0, 0⟩

/-- The `SECTION_END` macro from create-tftf.c:
`copy_offset + expanded_length - 1` in `uint32_t` arithmetic (wrapping:
for a zero-length section at offset 0 this is `2^32 - 1`). -/
def SECTION_END (s : TftfSection) : Nat :=
  (s.copy_offset + s.expanded_length + (UINT32_MOD - 1)) % UINT32_MOD

/-- A payload input file, abstracted to what `copy_file` observes of it:
whether `open` succeeds, and the successive results of the `read` calls
(positive byte counts, `0` at end-of-file, negative on a read error). -/
structure ByteSource where
  openOk : Bool
  reads : List Int
deriving DecidableEq, Repr

/-- The copy loop of `copy_file` in create-tftf.c: repeatedly `read`;
a result `<= 0` (end-of-file or error alike) stops the loop; a positive
result is written through and added to the running total. -/
def copyLoop : List Int → Nat → Nat
  | [], total => total
  | r :: rest, total =>
    if r ≤ 0 then total else copyLoop rest (total + r.toNat)

/-- `copy_file` from create-tftf.c: fails (nonzero status) if `open` fails or
if the total number of bytes copied is not positive; otherwise returns the
total, which becomes both `section_length` and `expanded_length`. -/
def copy_file (src : ByteSource) : Option Nat :=
  if src.openOk then
    let total := copyLoop src.reads 0
    if total > 0 then some total else none
  else none

/-- `section_info` from create-tftf.c: a cached command-line section request.
`offset = 0` means no explicit offset was specified. -/
structure SectionRequest where
  source : ByteSource
  type : Nat
  offset : Nat
deriving DecidableEq, Repr

/-- The state of the command-line parsing phase: the section cache built by
`cache_section` plus the parser's running `success` flag. -/
structure CacheState where
  table : List SectionRequest
  success : Bool
deriving Repr

/-- `cache_section` from create-tftf.c: if the cache still has room
(index `< TFTF_MAX_SECTIONS - 1` before the pre-increment), append the
request; otherwise print "too many sections" — but the function returns
`success`, which is initialized to `true` and never cleared, in both
branches, so the parser's success flag is unchanged either way. -/
def cache_section (st : CacheState) (req : SectionRequest) : CacheState :=
  if st.table.length < TFTF_MAX_SECTIONS then
    { st with table := st.table ++ [req] }
  else
    st

/-- The section-caching part of `main`'s option loop: fold `cache_section`
over the requested sections in command-line order. -/
def parseSections (reqs : List SectionRequest) : CacheState :=
  reqs.foldl cache_section ⟨[], true⟩

/-- The outcome of `write_tftf_file`: its success flag, the section
descriptors written into the header's array (in order), and the header's
accumulated `load_length` and `expanded_length` fields. -/
structure BuildResult where
  success : Bool
  placed : List TftfSection
  load_length : Nat
  expanded_length : Nat
deriving DecidableEq, Repr

/-- The cursor update at the top of `write_tftf_file`'s loop body: an explicit
offset (`> 0`) resets `tftf_copy_offset`, otherwise the running cursor is
kept. -/
def placeCursor (req : SectionRequest) (cursor : Nat) : Nat :=
  if req.offset > 0 then req.offset else cursor

/-- The descriptor built by `append_tftf_section` on a successful copy:
`section_length = expanded_length = total` (truncated to `uint32_t`),
`copy_offset` = the current cursor, `section_type` from the request. -/
def mkSection (req : SectionRequest) (cursor : Nat) (total : Nat) : TftfSection :=
  ⟨total % UINT32_MOD, total % UINT32_MOD, placeCursor req cursor, req.type⟩

/-- The section loop of `write_tftf_file` combined with `append_tftf_section`:
for each cached request, optionally reset the cursor to an explicit offset,
copy the payload (stopping the build on failure), record the descriptor,
advance the cursor by the expanded length, and update the header's
`load_length` (running sum) and `expanded_length` (set to the new cursor). -/
def processSections : List SectionRequest → Nat → List TftfSection → Nat → Nat → BuildResult
  | [], _, acc, ll, el => ⟨true, acc, ll, el⟩
  | req :: rest, cursor, acc, ll, el =>
    match copy_file req.source with
    | none => ⟨false, acc, ll, el⟩
    | some total =>
      processSections rest
        ((placeCursor req cursor + total % UINT32_MOD) % UINT32_MOD)
        (acc ++ [mkSection req cursor total])
        ((ll + total % UINT32_MOD) % UINT32_MOD)
        ((placeCursor req cursor + total % UINT32_MOD) % UINT32_MOD)

/-- `write_tftf_file` from create-tftf.c, restricted to the layout state it
computes: the cursor starts at 0 and the descriptor array starts empty
(the header was zeroed by `memset` in `main`). -/
def write_tftf_file (cached : List SectionRequest) : BuildResult :=
  processSections cached 0 [] 0 0

/-- The full 25-slot `section_descriptors` array of the finalized header:
the placed descriptors in order, followed by untouched all-zero slots.
No end-of-descriptors marker is ever stored by `write_tftf_file`. -/
def descriptorTable (placed : List TftfSection) : List TftfSection :=
  placed ++ List.replicate (TFTF_MAX_SECTIONS - placed.length) zeroSection

/-- The common loop bound of both loops in `validate_tftf_header`: scan
descriptor slots while the index is `< TFTF_MAX_SECTIONS` and the slot's
`section_type` differs from `TFTF_SECTION_TYPE_END_OF_DESCRIPTORS`. -/
def activeCount (tbl : List TftfSection) : Nat :=
  min (tbl.findIdx fun s => s.section_type == TFTF_SECTION_TYPE_END_OF_DESCRIPTORS)
    TFTF_MAX_SECTIONS

/-- The per-pair test inside `validate_tftf_header`:
`base_begin = copy_offset`, `base_end = SECTION_END(base)`,
`comp_end = copy_offset + SECTION_END(comp)` (as written in the source:
the comp section's copy_offset is added to the `SECTION_END` macro, which
itself already contains the copy_offset), and the pair is reported iff
NOT (`comp_end < base_begin` OR `comp.copy_offset > base_end`). -/
def overlap_check (base comp : TftfSection) : Bool :=
  if (comp.copy_offset + SECTION_END comp) % UINT32_MOD < base.copy_offset
      ∨ comp.copy_offset > SECTION_END base
  then false else true

/-- The pairs `(base, comp)` with `base < comp` that the two nested loops of
`validate_tftf_header` report as overlapping, in scan order. -/
def reportedPairs (tbl : List TftfSection) : List (Nat × Nat) :=
  (List.range (activeCount tbl)).flatMap fun base =>
    ((List.range (activeCount tbl)).filter fun comp => base < comp).filterMap fun comp =>
      if overlap_check (tbl.getD base zeroSection) (tbl.getD comp zeroSection)
      then some (base, comp) else none

/-- `validate_tftf_header` from create-tftf.c: `valid` iff no pair of scanned
descriptor slots is reported as overlapping. -/
def validate_tftf_header (tbl : List TftfSection) : Bool :=
  (reportedPairs tbl).isEmpty

/-- `struct tm` fields used by `set_timestamp`: `tm_year` is years since
1900 and `tm_mon` is months since January (0..11), as in the C library. -/
structure Tm where
  tm_year : Nat
  tm_mon : Nat
  tm_mday : Nat
  tm_hour : Nat
  tm_min : Nat
  tm_sec : Nat
deriving DecidableEq, Repr

/-- `printf`-style `%4d`: decimal, space-padded on the left to width 4. -/
def fmt4d (n : Nat) : String :=
  if n < 10 then "   " ++ toString n
  else if n < 100 then "  " ++ toString n
  else if n < 1000 then " " ++ toString n
  else toString n

/-- `printf`-style `%02d`: decimal, zero-padded on the left to width 2. -/
def fmt02d (n : Nat) : String :=
  if n < 10 then "0" ++ toString n else toString n

/-- `set_timestamp` from create-tftf.c: formats the broken-down UTC time with
`"%4d%02d%02d %02d%02d%02d"` applied to `tm_year + 1900`, `tm_mon`,
`tm_mday`, `tm_hour`, `tm_min`, `tm_sec` — note that `tm_mon` is used as-is
(months since January, 0-based), with no `+ 1`. -/
def set_timestamp (t : Tm) : String :=
  fmt4d (t.tm_year + 1900) ++ fmt02d t.tm_mon ++ fmt02d t.tm_mday ++ " "
    ++ fmt02d t.tm_hour ++ fmt02d t.tm_min ++ fmt02d t.tm_sec

/-- Stated from the specification's words, for comparison with the code's
`set_timestamp`: the UTC time as `YYYYMMDD HHMMSS`, numeric and zero-padded,
with the `MM` field equal to the calendar month number (`tm_mon + 1`). -/
def spec_timestamp (t : Tm) : String :=
  fmt4d (t.tm_year + 1900) ++ fmt02d (t.tm_mon + 1) ++ fmt02d t.tm_mday ++ " "
    ++ fmt02d t.tm_hour ++ fmt02d t.tm_min ++ fmt02d t.tm_sec

/-- The exit status computed by `main` (with an output filename supplied, the
external precondition): errors if parsing failed or no section was given;
otherwise run `write_tftf_file` on the cached sections; on build failure the
status is `PROGRAM_ERRORS`; on build success the status is
`PROGRAM_WARNINGS` when `validate_tftf_header` rejects the header and
`PROGRAM_SUCCESS` otherwise. -/
def main_status (reqs : List SectionRequest) : Nat :=
  if (parseSections reqs).success = false then PROGRAM_ERRORS
  else if reqs.length = 0 then PROGRAM_ERRORS
  else if (write_tftf_file (parseSections reqs).table).success then
    (if validate_tftf_header
        (descriptorTable (write_tftf_file (parseSections reqs).table).placed)
     then PROGRAM_SUCCESS else PROGRAM_WARNINGS)
  else PROGRAM_ERRORS

/-- Whether a file exists at the output path after `main` runs, given whether
one existed before. If the build phase is never entered the path is
untouched; otherwise `write_tftf_file` opens the path with
`O_CREAT | O_TRUNC` (creating or truncating it), and on build failure `main`
calls `unlink` on it, so the file remains afterwards iff the build
succeeded. -/
def final_out_present (initiallyPresent : Bool) (reqs : List SectionRequest) : Bool :=
  if (parseSections reqs).success = false then initiallyPresent
  else if reqs.length = 0 then initiallyPresent
  else (write_tftf_file (parseSections reqs).table).success

/-- A source whose `read` error precedes end-of-file: the payload cannot be
fully read (truncation mid-stream), in the sense of the specification. -/
def read_error_occurred (src : ByteSource) : Bool :=
  !src.openOk || src.reads.any fun r => r < 0

/-- Stated from the specification's words, for comparison with the code's
`overlap_check`: a section's inclusive range is
`[copy_offset, copy_offset + expanded_length - 1]`, and two sections overlap
iff NOT (`B.end < A.start` OR `B.start > A.end`). -/
def spec_overlaps (a b : TftfSection) : Bool :=
  if b.copy_offset + b.expanded_length - 1 < a.copy_offset
      ∨ b.copy_offset > a.copy_offset + a.expanded_length - 1
  then false else true

/-- Stated from the specification's words: the layout extent, the maximum of
`copy_offset + expanded_length` over all placed sections. -/
def layoutExtent (placed : List TftfSection) : Nat :=
  placed.foldl (fun m s => max m (s.copy_offset + s.expanded_length)) 0

/-- Stated from the specification's words: whether some unordered pair of
placed sections occupies overlapping address ranges. -/
def spec_any_overlap (placed : List TftfSection) : Bool :=
  (List.range placed.length).any fun i =>
    (List.range placed.length).any fun j =>
      decide (i < j) && spec_overlaps (placed.getD i zeroSection) (placed.getD j zeroSection)

/-- A payload source delivering `n` bytes in one `read`, then end-of-file
(for `n = 0` the first `read` already reports end-of-file: an empty file). -/
def srcBytes (n : Nat) : ByteSource := ⟨true, [(n : Int), 0]⟩

/-- A raw-code section request of `n` payload bytes with offset `off`
(`off = 0`: default contiguous placement). -/
def codeReq (n : Nat) (off : Nat) : SectionRequest :=
  ⟨srcBytes n, TFTF_SECTION_TYPE_RAW_CODE_BLOCK, off⟩

/-- The specification's synthetic three-section layout: A occupies [0,99]
(default placement), B occupies [50,149] (explicit offset 0x32 = 50),
C occupies [200,299] (explicit offset 0xC8 = 200). -/
def threeSectionReqs : List SectionRequest :=
  [codeReq 100 0, codeReq 100 50, codeReq 100 200]

/-- The finalized descriptor table the program builds for
`threeSectionReqs`. -/
def threeSectionTable : List TftfSection :=
  descriptorTable (write_tftf_file (parseSections threeSectionReqs).table).placed

/-- A properly end-marker-terminated descriptor table holding two disjoint
sections, [200,299] and [100,150], for probing the pairwise test of
`validate_tftf_header` in isolation from the missing end marker. -/
def disjointPairTable : List TftfSection :=
  ⟨100, 100, 200, TFTF_SECTION_TYPE_RAW_CODE_BLOCK⟩ ::
    ⟨51, 51, 100, TFTF_SECTION_TYPE_RAW_DATA_BLOCK⟩ ::
    ⟨0, 0, 0, TFTF_SECTION_TYPE_END_OF_DESCRIPTORS⟩ ::
    List.replicate 22 zeroSection

/-- Twenty-six one-byte section requests: one more than
`TFTF_MAX_SECTIONS`. -/
def twentySixReqs : List SectionRequest := List.replicate 26 (codeReq 1 0)

/-- A 100-byte section placed by default at 0, followed by a 20-byte section
with an explicit backward offset 10: the final cursor (30) is below the
layout extent (100). -/
def backwardOffsetReqs : List SectionRequest := [codeReq 100 0, codeReq 20 10]

/-- A single 7-byte section request. -/
def oneSectionReqs : List SectionRequest := [codeReq 7 0]

/-- A single 100-byte section request: one placed section, so no pair of
placed sections can overlap. -/
def soloReqs : List SectionRequest := [codeReq 100 0]

/-- A payload source that delivers one full 4096-byte buffer and then fails
with a read error: the input cannot be fully read. -/
def truncatedSrc : ByteSource := ⟨true, [4096, -1]⟩

/-- A build containing only the truncated-payload section. -/
def truncatedReqs : List SectionRequest :=
  [⟨truncatedSrc, TFTF_SECTION_TYPE_RAW_CODE_BLOCK, 0⟩]

/-- A build containing one section whose input file is empty. -/
def emptyInputReqs : List SectionRequest := [codeReq 0 0]

/-- Two default-placed sections of 1 and 2 bytes. -/
def twoPlainReqs : List SectionRequest := [codeReq 1 0, codeReq 2 0]

/-- The broken-down UTC time 2015-03-07 12:34:56: `tm_year = 115`
(years since 1900), `tm_mon = 2` (months since January). -/
def marchTime : Tm := ⟨115, 2, 7, 12, 34, 56⟩

end CreateTftf

namespace CreateTftf

/-- The parser's success flag is never cleared by `cache_section`, in either
branch. -/
theorem cache_section_success (st : CacheState) (req : SectionRequest) :
    (cache_section st req).success = st.success := by
  unfold cache_section
  split <;> rfl

/-- Folding `cache_section` preserves the success flag of any starting
state. -/
theorem foldl_cache_section_success (reqs : List SectionRequest) :
    ∀ st : CacheState, (reqs.foldl cache_section st).success = st.success := by
  induction reqs with
  | nil => intro st; rfl
  | cons r rest ih =>
    intro st
    rw [List.foldl_cons, ih, cache_section_success]

/-- The command-line parsing phase always reports success, regardless of how
many sections are requested. -/
theorem parseSections_success (reqs : List SectionRequest) :
    (parseSections reqs).success = true :=
  foldl_cache_section_success reqs ⟨[], true⟩

/-- The descriptors already recorded are a prefix of the final `placed`
list: `processSections` only ever appends. -/
theorem processSections_placed_extends (reqs : List SectionRequest) :
    ∀ cursor acc ll el, ∃ t, (processSections reqs cursor acc ll el).placed = acc ++ t := by
  induction reqs with
  | nil =>
    intro cursor acc ll el
    exact ⟨[], by simp [processSections]⟩
  | cons req rest ih =>
    intro cursor acc ll el
    simp only [processSections]
    cases h : copy_file req.source with
    | none => exact ⟨[], by simp⟩
    | some total =>
      obtain ⟨t, ht⟩ := ih ((placeCursor req cursor + total % UINT32_MOD) % UINT32_MOD)
        (acc ++ [mkSection req cursor total])
        ((ll + total % UINT32_MOD) % UINT32_MOD)
        ((placeCursor req cursor + total % UINT32_MOD) % UINT32_MOD)
      exact ⟨mkSection req cursor total :: t, by rw [ht]; simp⟩

/-- Invariant of the section loop: whenever the recorded descriptor list is
nonempty, the header's `expanded_length` equals the last recorded section's
`copy_offset + expanded_length` reduced modulo 2^32 (the cursor value after
that section was placed). -/
theorem processSections_expanded_length_last (reqs : List SectionRequest) :
    ∀ cursor acc ll el,
      (∀ s, acc.getLast? = some s →
        el = (s.copy_offset + s.expanded_length) % UINT32_MOD) →
      ∀ s, (processSections reqs cursor acc ll el).placed.getLast? = some s →
        (processSections reqs cursor acc ll el).expanded_length =
          (s.copy_offset + s.expanded_length) % UINT32_MOD := by
  induction reqs with
  | nil =>
    intro cursor acc ll el hinv s hs
    simp only [processSections] at hs ⊢
    exact hinv s hs
  | cons req rest ih =>
    intro cursor acc ll el hinv s hs
    simp only [processSections] at hs ⊢
    cases h : copy_file req.source with
    | none =>
      rw [h] at hs
      exact hinv s hs
    | some total =>
      rw [h] at hs
      refine ih _ _ _ _ ?_ s hs
      intro s' hs'
      rw [List.getLast?_concat] at hs'
      cases hs'
      rfl

/-- Invariant of the section loop with no explicit offsets: the recorded
descriptors form a contiguous chain, each section starting where the
previous one ends (modulo 2^32), provided the cursor currently sits at the
end of the last recorded section. -/
theorem processSections_chain (reqs : List SectionRequest) :
    ∀ cursor acc ll el,
      (∀ r ∈ reqs, r.offset = 0) →
      List.Chain'
        (fun a b => b.copy_offset = (a.copy_offset + a.expanded_length) % UINT32_MOD) acc →
      (∀ s, acc.getLast? = some s →
        cursor = (s.copy_offset + s.expanded_length) % UINT32_MOD) →
      List.Chain'
        (fun a b => b.copy_offset = (a.copy_offset + a.expanded_length) % UINT32_MOD)
        (processSections reqs cursor acc ll el).placed := by
  induction reqs with
  | nil =>
    intro cursor acc ll el _ hacc _
    simpa only [processSections] using hacc
  | cons req rest ih =>
    intro cursor acc ll el hoff hacc hcur
    simp only [processSections]
    cases h : copy_file req.source with
    | none => exact hacc
    | some total =>
      have hreq : req.offset = 0 := hoff req (by simp)
      have hpc : placeCursor req cursor = cursor := by
        simp [placeCursor, hreq]
      apply ih _ _ _ _ (fun r hr => hoff r (List.mem_cons_of_mem _ hr))
      · rw [List.chain'_append]
        refine ⟨hacc, List.chain'_singleton _, ?_⟩
        intro x hx y hy
        simp only [List.head?_cons, Option.mem_def, Option.some.injEq] at hy
        subst hy
        simp only [mkSection, hpc]
        exact hcur x hx
      · intro s hs
        rw [List.getLast?_concat] at hs
        cases hs
        simp [mkSection, hpc]

/-- With no explicit offsets, the first recorded section is placed exactly at
the initial cursor value. -/
theorem processSections_head_cursor (reqs : List SectionRequest) (cursor ll el : Nat)
    (hoff : ∀ r ∈ reqs, r.offset = 0) :
    ∀ s, (processSections reqs cursor [] ll el).placed.head? = some s →
      s.copy_offset = cursor := by
  cases reqs with
  | nil =>
    intro s hs
    simp [processSections] at hs
  | cons req rest =>
    intro s hs
    simp only [processSections] at hs
    cases h : copy_file req.source with
    | none =>
      rw [h] at hs
      simp at hs
    | some total =>
      rw [h] at hs
      obtain ⟨t, ht⟩ := processSections_placed_extends rest
        ((placeCursor req cursor + total % UINT32_MOD) % UINT32_MOD)
        ([] ++ [mkSection req cursor total])
        ((ll + total % UINT32_MOD) % UINT32_MOD)
        ((placeCursor req cursor + total % UINT32_MOD) % UINT32_MOD)
      rw [ht] at hs
      simp only [List.nil_append, List.cons_append, List.head?_cons,
        Option.some.injEq] at hs
      subst hs
      simp [mkSection, placeCursor, hoff req (by simp)]

end CreateTftf

namespace CreateTftf

/-- Claim C1: the claim states that `validate_tftf_header` reports a pair as
overlapping iff the sections' inclusive ranges
`[copy_offset, copy_offset + expanded_length - 1]` intersect, and that on
the three-section layout A = [0,99], B = [50,149], C = [200,299] exactly the
pair (A,B) is reported. The code refutes this: on the table the program
builds for that layout (no end-of-descriptors marker is ever stored, so all
25 slots are scanned) the pair (2,3) — section C against an all-zero unused
slot — is reported, and the reported list is not just [(0,1)]; moreover,
even on a properly marker-terminated table, the disjoint ranges [200,299]
and [100,150] are reported as overlapping, because the code computes
`comp_end` as `copy_offset + SECTION_END(comp)`, adding `copy_offset` a
second time, while the specification's predicate finds no overlap. -/
theorem validate_overlap_check_diverges_from_spec :
    (2, 3) ∈ reportedPairs threeSectionTable ∧
      reportedPairs threeSectionTable ≠ [(0, 1)] ∧
      reportedPairs disjointPairTable = [(0, 1)] ∧
      spec_overlaps (disjointPairTable.getD 0 zeroSection)
          (disjointPairTable.getD 1 zeroSection) = false ∧
      spec_overlaps (disjointPairTable.getD 1 zeroSection)
          (disjointPairTable.getD 0 zeroSection) = false := by
  decide

/-- Claim C2: the claim states that more than `TFTF_MAX_SECTIONS` (25)
section requests make the build fail with a capacity error and produce no
output file. The code refutes this: `cache_section` prints the "too many
sections" message but returns `true` in both branches, so with 26 requests
the parser still reports success, silently keeps only the first 25
requests, the build completes with plain-success exit status, and the
output file is written. -/
theorem too_many_sections_build_still_succeeds :
    (parseSections twentySixReqs).success = true ∧
      (parseSections twentySixReqs).table.length = 25 ∧
      main_status twentySixReqs = PROGRAM_SUCCESS ∧
      final_out_present false twentySixReqs = true := by
  decide

/-- Claim C3, counterexample: for a 100-byte section placed by default at
offset 0 followed by a 20-byte section with explicit backward offset 10,
the finalized header's `expanded_length` is 30 (the cursor after the last
section) while the layout extent — the maximum of
`copy_offset + expanded_length` over the placed sections — is 100, so the
claim's equation fails. -/
theorem expanded_length_not_layout_extent_cex :
    (write_tftf_file (parseSections backwardOffsetReqs).table).expanded_length = 30 ∧
      layoutExtent (write_tftf_file (parseSections backwardOffsetReqs).table).placed = 100 ∧
      (write_tftf_file (parseSections backwardOffsetReqs).table).expanded_length ≠
        layoutExtent (write_tftf_file (parseSections backwardOffsetReqs).table).placed := by
  decide

/-- Claim C3, amended: the finalized header's `expanded_length` equals the
final value of the offset cursor, i.e. the LAST placed section's
`copy_offset + expanded_length` reduced modulo 2^32 — which coincides with
the layout extent only when explicit offsets never move placement
backwards. -/
theorem expanded_length_eq_final_cursor (cached : List SectionRequest)
    (s : TftfSection)
    (h : (write_tftf_file cached).placed.getLast? = some s) :
    (write_tftf_file cached).expanded_length =
      (s.copy_offset + s.expanded_length) % UINT32_MOD :=
  processSections_expanded_length_last cached 0 [] 0 0
    (fun s' hs' => by simp at hs') s h

/-- Witness for `expanded_length_eq_final_cursor` at the backward-offset
build: the last placed section is ⟨20, 20, 10, 1⟩ and the header's
`expanded_length` is (10 + 20) % 2^32 = 30. -/
theorem expanded_length_eq_final_cursor_witness :
    (write_tftf_file (parseSections backwardOffsetReqs).table).placed.getLast? =
        some ⟨20, 20, 10, TFTF_SECTION_TYPE_RAW_CODE_BLOCK⟩ ∧
      (write_tftf_file (parseSections backwardOffsetReqs).table).expanded_length =
        (10 + 20) % UINT32_MOD :=
  ⟨by decide,
    expanded_length_eq_final_cursor (parseSections backwardOffsetReqs).table
      ⟨20, 20, 10, TFTF_SECTION_TYPE_RAW_CODE_BLOCK⟩ (by decide)⟩

/-- Claim C4: the claim states that in a header built from fewer than 25
sections, all unused descriptor slots are zero AND the first unused slot's
`section_type` equals `TFTF_SECTION_TYPE_END_OF_DESCRIPTORS` (0xFE). The
code refutes the second part: for a one-section build, every slot past the
first is the untouched all-zero slot — the zero-fill half of the claim
holds — but the first unused slot's type field is 0, not 0xFE, because
`write_tftf_file` never stores the end-of-table marker that
`print_tftf_header` and `validate_tftf_header` expect. -/
theorem end_marker_never_written :
    (descriptorTable (write_tftf_file (parseSections oneSectionReqs).table).placed).drop 1 =
        List.replicate 24 zeroSection ∧
      zeroSection.section_type = 0 ∧
      (0 : Nat) ≠ TFTF_SECTION_TYPE_END_OF_DESCRIPTORS := by
  decide

/-- Claim C5: the claim states that a fully-written build exits with the
"succeeded with warnings" status (1) iff some pair of placed sections
overlaps, and with plain success (0) otherwise. The code refutes this: a
single-section build has no pair of placed sections at all, yet its exit
status is `PROGRAM_WARNINGS`, because `validate_tftf_header` scans all 25
descriptor slots (no end marker is ever written) and reports the unused
all-zero slots — whose `SECTION_END` wraps to 2^32 - 1 — as overlapping
everything. -/
theorem warning_status_without_overlap :
    (write_tftf_file (parseSections soloReqs).table).success = true ∧
      spec_any_overlap (write_tftf_file (parseSections soloReqs).table).placed = false ∧
      main_status soloReqs = PROGRAM_WARNINGS := by
  decide

/-- Claim C6: the claim states that when a section's input cannot be fully
read — including a read failure partway through the payload — the build
aborts and no output artifact is left. The code refutes the partway case:
for a source that delivers one 4096-byte buffer and then fails with a read
error, `copy_file` treats the failed read exactly like end-of-file
(`bytes_read <= 0` breaks the loop), reports success with the partial
4096-byte payload, the build completes, and the output file remains. -/
theorem partial_read_reported_as_success :
    read_error_occurred truncatedSrc = true ∧
      copy_file truncatedSrc = some 4096 ∧
      (write_tftf_file (parseSections truncatedReqs).table).success = true ∧
      final_out_present false truncatedReqs = true ∧
      main_status truncatedReqs ≠ PROGRAM_ERRORS := by
  decide

/-- Claim C7: the claim states that a build with one zero-length input
section still succeeds, placing that section with length 0. The code
refutes this: for an empty input the copy loop transfers zero bytes, the
`bytes_written_total > 0` check in `copy_file` then fails the section with
the "unable to copy" error, the whole build aborts with `PROGRAM_ERRORS`,
and the output file is unlinked. -/
theorem empty_section_fails_build :
    copy_file (srcBytes 0) = none ∧
      (write_tftf_file (parseSections emptyInputReqs).table).success = false ∧
      main_status emptyInputReqs = PROGRAM_ERRORS ∧
      final_out_present true emptyInputReqs = false := by
  decide

/-- Claim C8: for every request sequence in which no request carries an
explicit offset, placement is contiguous — each placed section's
`copy_offset` equals the previous section's
`copy_offset + expanded_length` (as `uint32_t` values, i.e. modulo 2^32) —
and the first placed section sits at `copy_offset` 0, the initial cursor
value relative to the load base. -/
theorem no_offsets_contiguous_placement (cached : List SectionRequest)
    (hoff : ∀ r ∈ cached, r.offset = 0) :
    List.Chain'
        (fun a b => b.copy_offset = (a.copy_offset + a.expanded_length) % UINT32_MOD)
        (write_tftf_file cached).placed ∧
      ∀ s, (write_tftf_file cached).placed.head? = some s → s.copy_offset = 0 := by
  constructor
  · exact processSections_chain cached 0 [] 0 0 hoff List.chain'_nil
      (fun s hs => by simp at hs)
  · exact processSections_head_cursor cached 0 0 0 hoff

/-- Witness for `no_offsets_contiguous_placement` at a two-section build (1
byte then 2 bytes, no explicit offsets). -/
theorem no_offsets_contiguous_placement_witness :
    (∀ r ∈ twoPlainReqs, r.offset = 0) ∧
      (List.Chain'
          (fun a b => b.copy_offset = (a.copy_offset + a.expanded_length) % UINT32_MOD)
          (write_tftf_file twoPlainReqs).placed ∧
        ∀ s, (write_tftf_file twoPlainReqs).placed.head? = some s → s.copy_offset = 0) :=
  ⟨by decide, no_offsets_contiguous_placement twoPlainReqs (by decide)⟩

/-- Claim C9: the claim states that the timestamp field holds the UTC time as
`YYYYMMDD HHMMSS` with the `MM` field equal to the calendar month number.
The code refutes this: `set_timestamp` formats `now->tm_mon` directly —
months since January, 0-based — without the required `+ 1`, so for
2015-03-07 12:34:56 UTC (`tm_mon = 2`) it produces "20150207 123456" where
the specified format is "20150307 123456". -/
theorem timestamp_month_off_by_one :
    set_timestamp marchTime = "20150207 123456" ∧
      spec_timestamp marchTime = "20150307 123456" ∧
      set_timestamp marchTime ≠ spec_timestamp marchTime := by
  decide

/-- Claim C10: a failing build is not atomic with respect to a pre-existing
file at the output path: `write_tftf_file` opens the path with
`O_CREAT | O_TRUNC` before any section is processed and `main` unlinks the
path on failure, so after any failing build the previously existing file is
gone rather than restored. -/
theorem failing_build_removes_existing_output (reqs : List SectionRequest)
    (hne : reqs.length ≠ 0)
    (hfail : (write_tftf_file (parseSections reqs).table).success = false) :
    final_out_present true reqs = false := by
  unfold final_out_present
  rw [parseSections_success]
  simp [hne, hfail]

/-- Witness for `failing_build_removes_existing_output` at the
empty-input-section build, whose section copy fails. -/
theorem failing_build_removes_existing_output_witness :
    emptyInputReqs.length ≠ 0 ∧
      (write_tftf_file (parseSections emptyInputReqs).table).success = false ∧
      final_out_present true emptyInputReqs = false :=
  ⟨by decide, by decide,
    failing_build_removes_existing_output emptyInputReqs (by decide) (by decide)⟩

end CreateTftf
